import Mathlib

/-!
# NativeDOM: the DOM query boundary layer of the renderer

A shallow embedding of
`packages/react-native/ReactCommon/react/nativemodule/dom/NativeDOM.cpp`.

* JavaScript values, shadow nodes and native node references are plain data.
* The shadow tree revision provider is reached through the runtime.  Its answer
  may change from one consultation to the next (commits happen on another
  thread), so the runtime carries the answer of the k-th consultation for every
  k, together with the list of surface ids asked so far.
* The functions of `react/renderer/dom/DOM.h` that the file calls are taken as
  parameters (`DomLayer`): their bodies live in another translation unit.
* A `std::shared_ptr` that may be null is an `Option`; dereferencing a null one
  is the fault `Fault.nullDereference`.
* Continuations handed in by the caller are observed through the list of
  invocations an operation performs.
-/

namespace NativeDOM

/-! ## Data model -/

/-- Surface identifiers (`SurfaceId`, a machine integer in the source). -/
abbrev SurfaceId := Int

/-- The JavaScript values (`jsi::Value`) that the operations hand back. -/
inductive JsValue where
  | undefined
  | null
  | number (value : Int)
  | object (handle : Nat)
deriving DecidableEq, Repr

/-- The test `jsi::Value::isNull`. -/
def JsValue.isNull : JsValue → Bool
  | .null => true
  | _ => false

/-- What NativeDOM.cpp observes of a `ShadowNode`: the identity of the node
object (two clones of one node in two revisions are two objects), `getSurfaceId()`,
the `RootNodeKind` trait and the value of `getInstanceHandle(runtime)`, which is
`null` while no instance handle is attached. -/
structure ShadowNode where
  objectId : Nat
  surfaceId : SurfaceId
  rootNodeKind : Bool
  instanceHandle : JsValue
deriving DecidableEq, Repr

/-- A native node reference as it crosses the boundary: a number (the surface id
of a document; the source reads it with `asNumber()` and casts it to `SurfaceId`,
which is the identity on the integral values that document references are) or an
object wrapping a shadow node. -/
inductive NativeNodeReference where
  | number (value : Int)
  | shadowNode (node : ShadowNode)
deriving DecidableEq, Repr

/-- The test `jsi::Value::isNumber` on a native node reference. -/
def NativeNodeReference.isNumber : NativeNodeReference → Bool
  | .number _ => true
  | .shadowNode _ => false

/-- The runtime as far as the revision provider is concerned: `revisions k s` is
what `getCurrentRevision(s)` answers at the consultation number `k` (none: the
surface has no current revision), `consulted` lists the surface ids asked so far,
oldest first. -/
structure Runtime where
  revisions : Nat → SurfaceId → Option ShadowNode
  consulted : List SurfaceId

/-- The answer the provider gives when it is asked next. -/
def Runtime.currentRevision (rt : Runtime) (surfaceId : SurfaceId) : Option ShadowNode :=
  rt.revisions rt.consulted.length surfaceId

/-- The provider is in a fixed state `cur`: it answers every consultation alike. -/
def Runtime.Fixed (rt : Runtime) (cur : SurfaceId → Option ShadowNode) : Prop :=
  ∀ k, rt.revisions k = cur

/-- Rectangle returned by `dom::measureInWindow` and `dom::measureLayout`; the
coordinates are only carried from the DOM layer to the callback. -/
structure DOMRect where
  x : Int
  y : Int
  width : Int
  height : Int
deriving DecidableEq, Repr

/-- Rectangle returned by `dom::measure`. -/
structure MeasureRect where
  x : Int
  y : Int
  width : Int
  height : Int
  pageX : Int
  pageY : Int
deriving DecidableEq, Repr

/-- The functions of the DOM layer (`dom::` in the source) that NativeDOM.cpp
calls.  The first argument is always the current revision (its root node). -/
structure DomLayer where
  compareDocumentPosition : ShadowNode → ShadowNode → ShadowNode → Nat
  getChildNodes : ShadowNode → ShadowNode → List ShadowNode
  getParentNode : ShadowNode → ShadowNode → Option ShadowNode
  isConnected : ShadowNode → ShadowNode → Bool
  measure : ShadowNode → ShadowNode → MeasureRect
  measureInWindow : ShadowNode → ShadowNode → DOMRect
  measureLayout : ShadowNode → ShadowNode → ShadowNode → Option DOMRect

/-- Faults of the embedding. -/
inductive Fault where
  | nullDereference
deriving DecidableEq, Repr

deriving instance DecidableEq for Except

/-- One invocation of a continuation supplied by the caller. -/
inductive Invocation where
  | measureCallback (x y width height pageX pageY : Int)
  | measureInWindowCallback (x y width height : Int)
  | onFail
  | onSuccess (x y width height : Int)
deriving DecidableEq, Repr

namespace dom

/-- Modelled from the spec: the constant `dom::DOCUMENT_POSITION_DISCONNECTED`
of DOM.h, 0x01. -/
def DOCUMENT_POSITION_DISCONNECTED : Nat := 0x01

/-- Modelled from the spec: the constant `dom::DOCUMENT_POSITION_PRECEDING` of
DOM.h, 0x02. -/
def DOCUMENT_POSITION_PRECEDING : Nat := 0x02

/-- Modelled from the spec: the constant `dom::DOCUMENT_POSITION_FOLLOWING` of
DOM.h, 0x04. -/
def DOCUMENT_POSITION_FOLLOWING : Nat := 0x04

/-- Modelled from the spec: the constant `dom::DOCUMENT_POSITION_CONTAINS` of
DOM.h, 0x08. -/
def DOCUMENT_POSITION_CONTAINS : Nat := 0x08

/-- Modelled from the spec: the constant `dom::DOCUMENT_POSITION_CONTAINED_BY`
of DOM.h, 0x10. -/
def DOCUMENT_POSITION_CONTAINED_BY : Nat := 0x10

end dom

/-! ## Private helpers -/

/-- The overload `getCurrentShadowTreeRevision(runtime, surfaceId)`: one
consultation of the provider. -/
def getCurrentShadowTreeRevision (rt : Runtime) (surfaceId : SurfaceId) :
    Option ShadowNode × Runtime :=
  (rt.revisions rt.consulted.length surfaceId,
    { rt with consulted := rt.consulted ++ [surfaceId] })

/-- The surface a native node reference belongs to. -/
def NativeNodeReference.surfaceId : NativeNodeReference → SurfaceId
  | .number value => value
  | .shadowNode node => node.surfaceId

/-- The overload `getCurrentShadowTreeRevision(runtime, nativeNodeReference)`. -/
def getCurrentShadowTreeRevisionOf (rt : Runtime) (nativeNodeReference : NativeNodeReference) :
    Option ShadowNode × Runtime :=
  match nativeNodeReference with
  | .number value => getCurrentShadowTreeRevision rt value
  | .shadowNode node => getCurrentShadowTreeRevision rt node.surfaceId

/-- The loop of `getArrayOfInstanceHandlesFromShadowNodes`: an instance handle is
pushed back unless it is null. -/
def getArrayOfInstanceHandlesFromShadowNodes (nodes : List ShadowNode) : List JsValue :=
  nodes.foldl
    (fun nonNullInstanceHandles shadowNode =>
      if !shadowNode.instanceHandle.isNull then
        nonNullInstanceHandles ++ [shadowNode.instanceHandle]
      else nonNullInstanceHandles)
    []

/-- The helper `isRootShadowNode`. -/
def isRootShadowNode (shadowNode : ShadowNode) : Bool :=
  shadowNode.rootNodeKind

/-! ## Methods from the Node interface -/

/-- The last statement of `compareDocumentPosition`: both pointers are
dereferenced and handed to the DOM layer. -/
def compareDereferenced (D : DomLayer) (currentRevision : ShadowNode)
    (shadowNode otherShadowNode : Option ShadowNode) : Except Fault Nat :=
  match shadowNode, otherShadowNode with
  | some node, some other => .ok (D.compareDocumentPosition currentRevision node other)
  | _, _ => .error .nullDereference

/-- The method `NativeDOM::compareDocumentPosition`. -/
def compareDocumentPosition (D : DomLayer) (rt : Runtime)
    (nativeNodeReference otherNativeNodeReference : NativeNodeReference) :
    Except Fault Nat × Runtime :=
  let fetched := getCurrentShadowTreeRevisionOf rt nativeNodeReference
  match fetched.1 with
  | none => (.ok dom.DOCUMENT_POSITION_DISCONNECTED, fetched.2)
  | some currentRevision =>
    match nativeNodeReference, otherNativeNodeReference with
    | .number _, .number _ =>
      (.ok dom.DOCUMENT_POSITION_DISCONNECTED, fetched.2)
    | .number surfaceId, .shadowNode otherShadowNode =>
      if isRootShadowNode otherShadowNode then
        (.ok (if surfaceId = otherShadowNode.surfaceId then
            dom.DOCUMENT_POSITION_CONTAINED_BY ||| dom.DOCUMENT_POSITION_FOLLOWING
          else dom.DOCUMENT_POSITION_DISCONNECTED), fetched.2)
      else
        (compareDereferenced D currentRevision (some currentRevision) (some otherShadowNode),
          fetched.2)
    | .shadowNode shadowNode, .number otherSurfaceId =>
      let refetched := getCurrentShadowTreeRevision fetched.2 otherSurfaceId
      if isRootShadowNode shadowNode then
        (.ok (if otherSurfaceId = shadowNode.surfaceId then
            dom.DOCUMENT_POSITION_CONTAINS ||| dom.DOCUMENT_POSITION_PRECEDING
          else dom.DOCUMENT_POSITION_DISCONNECTED), refetched.2)
      else
        (compareDereferenced D currentRevision (some shadowNode) refetched.1, refetched.2)
    | .shadowNode shadowNode, .shadowNode otherShadowNode =>
      (compareDereferenced D currentRevision (some shadowNode) (some otherShadowNode),
        fetched.2)

/-- The method `NativeDOM::getChildNodes`. -/
def getChildNodes (D : DomLayer) (rt : Runtime) (nativeNodeReference : NativeNodeReference) :
    List JsValue × Runtime :=
  let fetched := getCurrentShadowTreeRevisionOf rt nativeNodeReference
  match fetched.1 with
  | none => ([], fetched.2)
  | some currentRevision =>
    match nativeNodeReference with
    | .number _ => (getArrayOfInstanceHandlesFromShadowNodes [currentRevision], fetched.2)
    | .shadowNode shadowNode =>
      (getArrayOfInstanceHandlesFromShadowNodes (D.getChildNodes currentRevision shadowNode),
        fetched.2)

/-- The method `NativeDOM::getParentNode`. -/
def getParentNode (D : DomLayer) (rt : Runtime) (nativeNodeReference : NativeNodeReference) :
    JsValue × Runtime :=
  match nativeNodeReference with
  | .number _ => (.undefined, rt)
  | .shadowNode shadowNode =>
    if isRootShadowNode shadowNode then
      (.number shadowNode.surfaceId, rt)
    else
      let fetched := getCurrentShadowTreeRevision rt shadowNode.surfaceId
      match fetched.1 with
      | none => (.undefined, fetched.2)
      | some currentRevision =>
        match D.getParentNode currentRevision shadowNode with
        | none => (.undefined, fetched.2)
        | some parentShadowNode => (parentShadowNode.instanceHandle, fetched.2)

/-- The method `NativeDOM::isConnected`. -/
def isConnected (D : DomLayer) (rt : Runtime) (nativeNodeReference : NativeNodeReference) :
    Bool × Runtime :=
  let fetched := getCurrentShadowTreeRevisionOf rt nativeNodeReference
  match fetched.1 with
  | none => (false, fetched.2)
  | some currentRevision =>
    match nativeNodeReference with
    | .number _ => (true, fetched.2)
    | .shadowNode shadowNode => (D.isConnected currentRevision shadowNode, fetched.2)

/-! ## Legacy layout APIs -/

/-- The method `NativeDOM::measure`; it takes one continuation, `callback`. -/
def measure (D : DomLayer) (rt : Runtime) (shadowNode : ShadowNode) :
    List Invocation × Runtime :=
  let fetched := getCurrentShadowTreeRevision rt shadowNode.surfaceId
  match fetched.1 with
  | none => ([.measureCallback 0 0 0 0 0 0], fetched.2)
  | some currentRevision =>
    let measureRect := D.measure currentRevision shadowNode
    ([.measureCallback measureRect.x measureRect.y measureRect.width measureRect.height
        measureRect.pageX measureRect.pageY], fetched.2)

/-- The method `NativeDOM::measureInWindow`; it takes one continuation,
`callback`. -/
def measureInWindow (D : DomLayer) (rt : Runtime) (shadowNode : ShadowNode) :
    List Invocation × Runtime :=
  let fetched := getCurrentShadowTreeRevision rt shadowNode.surfaceId
  match fetched.1 with
  | none => ([.measureInWindowCallback 0 0 0 0], fetched.2)
  | some currentRevision =>
    let rect := D.measureInWindow currentRevision shadowNode
    ([.measureInWindowCallback rect.x rect.y rect.width rect.height], fetched.2)

/-- The method `NativeDOM::measureLayout`; it takes two continuations, `onFail`
and `onSuccess`. -/
def measureLayout (D : DomLayer) (rt : Runtime) (shadowNode relativeToShadowNode : ShadowNode) :
    List Invocation × Runtime :=
  let fetched := getCurrentShadowTreeRevision rt shadowNode.surfaceId
  match fetched.1 with
  | none => ([.onFail], fetched.2)
  | some currentRevision =>
    match D.measureLayout currentRevision shadowNode relativeToShadowNode with
    | none => ([.onFail], fetched.2)
    | some rect => ([.onSuccess rect.x rect.y rect.width rect.height], fetched.2)

/-! ## Concrete inputs -/

/-- A root node of surface 7 with an instance handle attached. -/
def exRoot : ShadowNode :=
  { objectId := 1, surfaceId := 7, rootNodeKind := true, instanceHandle := .object 100 }

/-- The root node of the next revision of surface 7: another object. -/
def exNextRoot : ShadowNode :=
  { objectId := 11, surfaceId := 7, rootNodeKind := true, instanceHandle := .object 100 }

/-- A root node of surface 7 to which no instance handle has been attached. -/
def exUnlinkedRoot : ShadowNode :=
  { objectId := 21, surfaceId := 7, rootNodeKind := true, instanceHandle := .null }

/-- A root node of surface 9. -/
def exForeignRoot : ShadowNode :=
  { objectId := 31, surfaceId := 9, rootNodeKind := true, instanceHandle := .object 300 }

/-- A node of surface 7 that is not a root, with an instance handle. -/
def exChildA : ShadowNode :=
  { objectId := 2, surfaceId := 7, rootNodeKind := false, instanceHandle := .object 101 }

/-- A node of surface 7 that is not a root, without an instance handle. -/
def exChildB : ShadowNode :=
  { objectId := 3, surfaceId := 7, rootNodeKind := false, instanceHandle := .null }

/-- A node of surface 7 that is not a root, with an instance handle. -/
def exChildC : ShadowNode :=
  { objectId := 4, surfaceId := 7, rootNodeKind := false, instanceHandle := .object 103 }

/-- A node of surface 7 that is not a root and is in no revision any more. -/
def exDetachedNode : ShadowNode :=
  { objectId := 5, surfaceId := 7, rootNodeKind := false, instanceHandle := .object 104 }

/-- A node of surface 9 that is not a root. -/
def exStaleNode : ShadowNode :=
  { objectId := 32, surfaceId := 9, rootNodeKind := false, instanceHandle := .object 301 }

/-- A DOM layer over the tree root(A, B, C): children and parents by object
identity, ordering by object identity within one surface, fixed rectangles. -/
def exDom : DomLayer where
  compareDocumentPosition := fun _ a b =>
    if a.surfaceId ≠ b.surfaceId then dom.DOCUMENT_POSITION_DISCONNECTED
    else if a.objectId < b.objectId then dom.DOCUMENT_POSITION_FOLLOWING
    else dom.DOCUMENT_POSITION_PRECEDING
  getChildNodes := fun rev n =>
    if n.objectId = rev.objectId then [exChildA, exChildB, exChildC] else []
  getParentNode := fun rev n =>
    if n.objectId = 2 ∨ n.objectId = 3 ∨ n.objectId = 4 then some rev else none
  isConnected := fun _ n => decide (n.objectId ≤ 4)
  measure := fun _ _ => { x := 1, y := 2, width := 3, height := 4, pageX := 5, pageY := 6 }
  measureInWindow := fun _ _ => { x := 1, y := 2, width := 3, height := 4 }
  measureLayout := fun _ n r =>
    if n.surfaceId = r.surfaceId then some { x := 5, y := 6, width := 7, height := 8 } else none

/-- A provider in a fixed state: surface 7 has the revision rooted at `exRoot`,
no other surface has one. -/
def exRuntime : Runtime where
  revisions := fun _ s => if s = 7 then some exRoot else none
  consulted := []

/-- A provider in a fixed state whose revision of surface 7 is rooted at a node
without instance handle. -/
def exUnlinkedRuntime : Runtime where
  revisions := fun _ s => if s = 7 then some exUnlinkedRoot else none
  consulted := []

/-- A provider during a commit: the first consultation sees the revision rooted
at `exRoot`, every later one the revision rooted at `exNextRoot`. -/
def exCommittingRuntime : Runtime where
  revisions := fun k s =>
    if s = 7 then (if k = 0 then some exRoot else some exNextRoot) else none
  consulted := []

/-! ## Auxiliary facts -/

/-- The loop with an arbitrary accumulator: the accumulator is extended by the
non-null instance handles of the nodes, in order. -/
theorem foldl_instanceHandles (nodes : List ShadowNode) (acc : List JsValue) :
    nodes.foldl
      (fun nonNullInstanceHandles shadowNode =>
        if !shadowNode.instanceHandle.isNull then
          nonNullInstanceHandles ++ [shadowNode.instanceHandle]
        else nonNullInstanceHandles)
      acc
    = acc ++ (nodes.map (fun n => n.instanceHandle)).filter (fun v => !v.isNull) := by
  induction nodes generalizing acc with
  | nil => simp
  | cons n rest ih =>
    simp only [List.foldl_cons, List.map_cons, ih]
    cases hn : n.instanceHandle.isNull <;> simp [List.filter_cons, hn]

/-- The array of instance handles is the list of the nodes' instance handles with
the null ones left out. -/
theorem getArrayOfInstanceHandlesFromShadowNodes_eq (nodes : List ShadowNode) :
    getArrayOfInstanceHandlesFromShadowNodes nodes
      = (nodes.map (fun n => n.instanceHandle)).filter (fun v => !v.isNull) := by
  unfold getArrayOfInstanceHandlesFromShadowNodes
  exact (foldl_instanceHandles nodes []).trans (List.nil_append _)

/-! ## compareDocumentPosition -/

/-- C1, as stated, fails: with surface 7 live and `exRoot` its root node,
comparing the document with the root does not give CONTAINS|PRECEDING, and
comparing the root with the document does not give CONTAINED_BY|FOLLOWING. -/
theorem compareDocumentPosition_document_root_not_contains :
    exRuntime.currentRevision 7 = some exRoot ∧
    isRootShadowNode exRoot = true ∧ exRoot.surfaceId = 7 ∧
    (compareDocumentPosition exDom exRuntime (.number 7) (.shadowNode exRoot)).1
      ≠ .ok (dom.DOCUMENT_POSITION_CONTAINS ||| dom.DOCUMENT_POSITION_PRECEDING) ∧
    (compareDocumentPosition exDom exRuntime (.shadowNode exRoot) (.number 7)).1
      ≠ .ok (dom.DOCUMENT_POSITION_CONTAINED_BY ||| dom.DOCUMENT_POSITION_FOLLOWING) := by
  decide

/-- C1, amended: when surface S has a current revision and r is a root node of
surface S, comparing the document S with r gives exactly CONTAINED_BY|FOLLOWING
(0x10|0x04) and comparing r with the document S gives exactly CONTAINS|PRECEDING
(0x08|0x02): the result describes the second argument relative to the first. -/
theorem compareDocumentPosition_document_root (D : DomLayer) (rt : Runtime) (S : SurfaceId)
    (r rev : ShadowNode) (hrev : rt.currentRevision S = some rev)
    (hroot : isRootShadowNode r = true) (hsurf : r.surfaceId = S) :
    (compareDocumentPosition D rt (.number S) (.shadowNode r)).1
      = .ok (dom.DOCUMENT_POSITION_CONTAINED_BY ||| dom.DOCUMENT_POSITION_FOLLOWING) ∧
    (compareDocumentPosition D rt (.shadowNode r) (.number S)).1
      = .ok (dom.DOCUMENT_POSITION_CONTAINS ||| dom.DOCUMENT_POSITION_PRECEDING) ∧
    dom.DOCUMENT_POSITION_CONTAINED_BY ||| dom.DOCUMENT_POSITION_FOLLOWING = 0x10 ||| 0x04 ∧
    dom.DOCUMENT_POSITION_CONTAINS ||| dom.DOCUMENT_POSITION_PRECEDING = 0x08 ||| 0x02 := by
  subst hsurf
  unfold Runtime.currentRevision at hrev
  refine ⟨?_, ?_, rfl, rfl⟩
  · simp [compareDocumentPosition, getCurrentShadowTreeRevisionOf,
      getCurrentShadowTreeRevision, hrev, hroot]
  · simp [compareDocumentPosition, getCurrentShadowTreeRevisionOf,
      getCurrentShadowTreeRevision, hrev, hroot]

/-- Witness of C1 amended on surface 7 and its root `exRoot`. -/
theorem compareDocumentPosition_document_root_witness :
    (compareDocumentPosition exDom exRuntime (.number 7) (.shadowNode exRoot)).1 = .ok 20 ∧
    (compareDocumentPosition exDom exRuntime (.shadowNode exRoot) (.number 7)).1 = .ok 10 :=
  ⟨(compareDocumentPosition_document_root exDom exRuntime 7 exRoot exRoot
      (by decide) (by decide) (by decide)).1,
   (compareDocumentPosition_document_root exDom exRuntime 7 exRoot exRoot
      (by decide) (by decide) (by decide)).2.1⟩

/-- C2, evaluated at the failing input: surface 7 is live, surface 9 has no
current revision, the first argument is a node of surface 7 that is not a root
and the second is the document 9. Whatever the DOM layer is, the call
dereferences the null pointer that the second consultation returned. -/
theorem compareDocumentPosition_null_document_dereferenced (D : DomLayer) :
    exRuntime.currentRevision 9 = none ∧
    (compareDocumentPosition D exRuntime (.shadowNode exChildA) (.number 9)).1
      = .error .nullDereference := by
  refine ⟨by decide, ?_⟩
  rfl

/-- C3: when one argument is the document S and the other is a document (of any
surface) or a root node of another surface, the result is exactly DISCONNECTED
(0x01) in both argument orders, whatever the provider answers. -/
theorem compareDocumentPosition_document_disconnected (D : DomLayer) (rt : Runtime)
    (S : SurfaceId) (other : NativeNodeReference)
    (h : other.isNumber = true ∨
      ∃ r, other = .shadowNode r ∧ isRootShadowNode r = true ∧ r.surfaceId ≠ S) :
    (compareDocumentPosition D rt (.number S) other).1 = .ok dom.DOCUMENT_POSITION_DISCONNECTED ∧
    (compareDocumentPosition D rt other (.number S)).1 = .ok dom.DOCUMENT_POSITION_DISCONNECTED ∧
    dom.DOCUMENT_POSITION_DISCONNECTED = 0x01 := by
  refine ⟨?_, ?_, rfl⟩
  · rcases h with h | ⟨r, rfl, hroot, hne⟩
    · cases other with
      | number T =>
        simp only [compareDocumentPosition, getCurrentShadowTreeRevisionOf]
        cases (getCurrentShadowTreeRevision rt S).1 <;> rfl
      | shadowNode n => simp [NativeNodeReference.isNumber] at h
    · have hne' : ¬ S = r.surfaceId := fun e => hne e.symm
      simp only [compareDocumentPosition, getCurrentShadowTreeRevisionOf]
      cases (getCurrentShadowTreeRevision rt S).1 with
      | none => rfl
      | some rev => simp [hroot, hne']
  · rcases h with h | ⟨r, rfl, hroot, hne⟩
    · cases other with
      | number T =>
        simp only [compareDocumentPosition, getCurrentShadowTreeRevisionOf]
        cases (getCurrentShadowTreeRevision rt T).1 <;> rfl
      | shadowNode n => simp [NativeNodeReference.isNumber] at h
    · have hne' : ¬ S = r.surfaceId := fun e => hne e.symm
      simp only [compareDocumentPosition, getCurrentShadowTreeRevisionOf]
      cases (getCurrentShadowTreeRevision rt r.surfaceId).1 with
      | none => rfl
      | some rev => simp [hroot, hne']

/-- Witness of C3: the document 7 against the document 9 and against the root
node of surface 9. -/
theorem compareDocumentPosition_document_disconnected_witness :
    (compareDocumentPosition exDom exRuntime (.number 7) (.number 9)).1 = .ok 1 ∧
    (compareDocumentPosition exDom exRuntime (.number 7) (.shadowNode exForeignRoot)).1 = .ok 1 ∧
    (compareDocumentPosition exDom exRuntime (.shadowNode exForeignRoot) (.number 7)).1 = .ok 1 :=
  ⟨(compareDocumentPosition_document_disconnected exDom exRuntime 7 (.number 9)
      (Or.inl rfl)).1,
   (compareDocumentPosition_document_disconnected exDom exRuntime 7 (.shadowNode exForeignRoot)
      (Or.inr ⟨exForeignRoot, rfl, by decide, by decide⟩)).1,
   (compareDocumentPosition_document_disconnected exDom exRuntime 7 (.shadowNode exForeignRoot)
      (Or.inr ⟨exForeignRoot, rfl, by decide, by decide⟩)).2.1⟩

/-! ## getChildNodes, getParentNode, isConnected -/

/-- C4, as stated, fails: surface 7 has a current revision rooted at a node
without instance handle, yet the children of the document 7 are the empty
sequence; and the root `exRoot` has three located children, yet its child nodes
have two entries. -/
theorem getChildNodes_null_handles_dropped :
    exUnlinkedRuntime.currentRevision 7 = some exUnlinkedRoot ∧
    (getChildNodes exDom exUnlinkedRuntime (.number 7)).1 = [] ∧
    exRuntime.currentRevision exRoot.surfaceId = some exRoot ∧
    (exDom.getChildNodes exRoot exRoot).length = 3 ∧
    (getChildNodes exDom exRuntime (.shadowNode exRoot)).1.length = 2 := by
  decide

/-- C4, amended: the children of the document S are the one-element sequence of
the root's instance handle when S has a current revision whose root has a
non-null instance handle, and empty when S has no current revision or the root's
instance handle is null; for a concrete node they are the non-null instance
handles of the located children, in the same order, and empty when the node's
surface has no current revision. -/
theorem getChildNodes_nonNull_handles (D : DomLayer) (rt : Runtime) :
    (∀ S, rt.currentRevision S = none → (getChildNodes D rt (.number S)).1 = []) ∧
    (∀ S R, rt.currentRevision S = some R →
      (getChildNodes D rt (.number S)).1
        = if R.instanceHandle.isNull then [] else [R.instanceHandle]) ∧
    (∀ n, rt.currentRevision n.surfaceId = none →
      (getChildNodes D rt (.shadowNode n)).1 = []) ∧
    (∀ n rev, rt.currentRevision n.surfaceId = some rev →
      (getChildNodes D rt (.shadowNode n)).1
        = ((D.getChildNodes rev n).map (fun c => c.instanceHandle)).filter
            (fun v => !v.isNull)) := by
  unfold Runtime.currentRevision
  refine ⟨?_, ?_, ?_, ?_⟩
  · intro S h
    simp [getChildNodes, getCurrentShadowTreeRevisionOf, getCurrentShadowTreeRevision, h]
  · intro S R h
    simp only [getChildNodes, getCurrentShadowTreeRevisionOf, getCurrentShadowTreeRevision, h,
      getArrayOfInstanceHandlesFromShadowNodes_eq]
    cases hR : R.instanceHandle.isNull <;> simp [List.filter_cons, hR]
  · intro n h
    simp [getChildNodes, getCurrentShadowTreeRevisionOf, getCurrentShadowTreeRevision, h]
  · intro n rev h
    simp only [getChildNodes, getCurrentShadowTreeRevisionOf, getCurrentShadowTreeRevision, h,
      getArrayOfInstanceHandlesFromShadowNodes_eq]

/-- Witness of C4 amended: a dead surface, a linked root, an unlinked root, a
node of a dead surface and the children of `exRoot`. -/
theorem getChildNodes_nonNull_handles_witness :
    (getChildNodes exDom exRuntime (.number 9)).1 = [] ∧
    (getChildNodes exDom exRuntime (.number 7)).1 = [.object 100] ∧
    (getChildNodes exDom exUnlinkedRuntime (.number 7)).1 = [] ∧
    (getChildNodes exDom exRuntime (.shadowNode exForeignRoot)).1 = [] ∧
    (getChildNodes exDom exRuntime (.shadowNode exRoot)).1 = [.object 101, .object 103] :=
  ⟨(getChildNodes_nonNull_handles exDom exRuntime).1 9 (by decide),
   (getChildNodes_nonNull_handles exDom exRuntime).2.1 7 exRoot (by decide),
   (getChildNodes_nonNull_handles exDom exUnlinkedRuntime).2.1 7 exUnlinkedRoot (by decide),
   (getChildNodes_nonNull_handles exDom exRuntime).2.2.1 exForeignRoot (by decide),
   (getChildNodes_nonNull_handles exDom exRuntime).2.2.2 exRoot exRoot (by decide)⟩

/-- C5: the parent of a document reference is none (undefined); the parent of a
node with the root trait is its surface id as a number; the parent of any other
node is none when its surface has no current revision or the parent lookup in
that revision finds nothing, and otherwise the instance handle of the parent
found there. -/
theorem getParentNode_cases (D : DomLayer) (rt : Runtime) :
    (∀ S, (getParentNode D rt (.number S)).1 = .undefined) ∧
    (∀ n, isRootShadowNode n = true →
      (getParentNode D rt (.shadowNode n)).1 = .number n.surfaceId) ∧
    (∀ n, isRootShadowNode n = false → rt.currentRevision n.surfaceId = none →
      (getParentNode D rt (.shadowNode n)).1 = .undefined) ∧
    (∀ n rev, isRootShadowNode n = false → rt.currentRevision n.surfaceId = some rev →
      D.getParentNode rev n = none →
      (getParentNode D rt (.shadowNode n)).1 = .undefined) ∧
    (∀ n rev parent, isRootShadowNode n = false →
      rt.currentRevision n.surfaceId = some rev →
      D.getParentNode rev n = some parent →
      (getParentNode D rt (.shadowNode n)).1 = parent.instanceHandle) := by
  unfold Runtime.currentRevision
  refine ⟨?_, ?_, ?_, ?_, ?_⟩
  · intro S
    rfl
  · intro n hroot
    simp [getParentNode, hroot]
  · intro n hroot h
    simp [getParentNode, hroot, getCurrentShadowTreeRevision, h]
  · intro n rev hroot h hp
    simp [getParentNode, hroot, getCurrentShadowTreeRevision, h, hp]
  · intro n rev parent hroot h hp
    simp [getParentNode, hroot, getCurrentShadowTreeRevision, h, hp]

/-- Witness of C5: the document 7, the root of surface 7, a node of a dead
surface, a detached node, and a child of the root. -/
theorem getParentNode_cases_witness :
    (getParentNode exDom exRuntime (.number 7)).1 = .undefined ∧
    (getParentNode exDom exRuntime (.shadowNode exRoot)).1 = .number 7 ∧
    (getParentNode exDom exRuntime (.shadowNode exStaleNode)).1 = .undefined ∧
    (getParentNode exDom exRuntime (.shadowNode exDetachedNode)).1 = .undefined ∧
    (getParentNode exDom exRuntime (.shadowNode exChildA)).1 = .object 100 :=
  ⟨(getParentNode_cases exDom exRuntime).1 7,
   (getParentNode_cases exDom exRuntime).2.1 exRoot (by decide),
   (getParentNode_cases exDom exRuntime).2.2.1 exStaleNode (by decide) (by decide),
   (getParentNode_cases exDom exRuntime).2.2.2.1 exDetachedNode exRoot
      (by decide) (by decide) (by decide),
   (getParentNode_cases exDom exRuntime).2.2.2.2 exChildA exRoot exRoot
      (by decide) (by decide) (by decide)⟩

/-- C6: `isConnected x` is true exactly when the provider returns a current
revision for the surface of x and x is a document reference or the connectivity
lookup of x in that revision succeeds; for a document reference, exactly when its
surface has a current revision. -/
theorem isConnected_iff (D : DomLayer) (rt : Runtime) (x : NativeNodeReference)
    (S : SurfaceId) :
    ((isConnected D rt x).1 = true ↔
      ∃ rev, rt.currentRevision x.surfaceId = some rev ∧
        (x.isNumber = true ∨ ∃ n, x = .shadowNode n ∧ D.isConnected rev n = true)) ∧
    ((isConnected D rt (.number S)).1 = true ↔ rt.currentRevision S ≠ none) := by
  unfold Runtime.currentRevision
  constructor
  · cases x with
    | number T =>
      simp only [isConnected, getCurrentShadowTreeRevisionOf, getCurrentShadowTreeRevision,
        NativeNodeReference.surfaceId, NativeNodeReference.isNumber]
      cases h : rt.revisions rt.consulted.length T <;> simp
    | shadowNode n =>
      simp only [isConnected, getCurrentShadowTreeRevisionOf, getCurrentShadowTreeRevision,
        NativeNodeReference.surfaceId, NativeNodeReference.isNumber]
      cases h : rt.revisions rt.consulted.length n.surfaceId <;> simp
  · simp only [isConnected, getCurrentShadowTreeRevisionOf, getCurrentShadowTreeRevision]
    cases h : rt.revisions rt.consulted.length S <;> simp

/-! ## Legacy layout APIs -/

/-- C7, as stated, fails: surface 9 has no current revision, and for a node of
surface 9 `measure` and `measureInWindow` each perform one invocation, of their
callback with all-zero values; no failure continuation is invoked. -/
theorem measure_dead_surface_calls_back_zeros :
    exRuntime.currentRevision exStaleNode.surfaceId = none ∧
    (measure exDom exRuntime exStaleNode).1 = [.measureCallback 0 0 0 0 0 0] ∧
    (measureInWindow exDom exRuntime exStaleNode).1 = [.measureInWindowCallback 0 0 0 0] ∧
    Invocation.onFail ∉ (measure exDom exRuntime exStaleNode).1 ∧
    Invocation.onFail ∉ (measureInWindow exDom exRuntime exStaleNode).1 := by
  decide

/-- C7, amended: for a node whose surface has no current revision, `measure`
invokes its callback exactly once, with six zeros, and `measureInWindow` invokes
its callback exactly once, with four zeros. -/
theorem measure_dead_surface (D : DomLayer) (rt : Runtime) (n : ShadowNode)
    (h : rt.currentRevision n.surfaceId = none) :
    (measure D rt n).1 = [.measureCallback 0 0 0 0 0 0] ∧
    (measureInWindow D rt n).1 = [.measureInWindowCallback 0 0 0 0] := by
  unfold Runtime.currentRevision at h
  simp [measure, measureInWindow, getCurrentShadowTreeRevision, h]

/-- Witness of C7 amended at a node of the dead surface 9. -/
theorem measure_dead_surface_witness :
    exRuntime.currentRevision exStaleNode.surfaceId = none ∧
    (measure exDom exRuntime exStaleNode).1 = [.measureCallback 0 0 0 0 0 0] ∧
    (measureInWindow exDom exRuntime exStaleNode).1 = [.measureInWindowCallback 0 0 0 0] :=
  ⟨by decide, measure_dead_surface exDom exRuntime exStaleNode (by decide)⟩

/-- C8: `measureLayout` performs exactly one invocation: of `onFail` exactly when
the node's surface has no current revision or the layout computation between the
node and `relativeTo` in that revision yields no rectangle, and otherwise of
`onSuccess` with the x, y, width and height of the rectangle computed. -/
theorem measureLayout_one_continuation (D : DomLayer) (rt : Runtime) (n relativeTo : ShadowNode) :
    ((measureLayout D rt n relativeTo).1 = [.onFail] ∨
      ∃ x y w h, (measureLayout D rt n relativeTo).1 = [.onSuccess x y w h]) ∧
    ((measureLayout D rt n relativeTo).1 = [.onFail] ↔
      (rt.currentRevision n.surfaceId = none ∨
        ∃ rev, rt.currentRevision n.surfaceId = some rev ∧
          D.measureLayout rev n relativeTo = none)) ∧
    (∀ rev rect, rt.currentRevision n.surfaceId = some rev →
      D.measureLayout rev n relativeTo = some rect →
      (measureLayout D rt n relativeTo).1
        = [.onSuccess rect.x rect.y rect.width rect.height]) := by
  unfold Runtime.currentRevision
  cases h : rt.revisions rt.consulted.length n.surfaceId with
  | none =>
    have e : (measureLayout D rt n relativeTo).1 = [.onFail] := by
      simp [measureLayout, getCurrentShadowTreeRevision, h]
    rw [e]
    simp
  | some rev =>
    cases hr : D.measureLayout rev n relativeTo with
    | none =>
      have e : (measureLayout D rt n relativeTo).1 = [.onFail] := by
        simp [measureLayout, getCurrentShadowTreeRevision, h, hr]
      rw [e]
      refine ⟨Or.inl rfl, by simp [hr], ?_⟩
      intro rev1 rect1 e1 e2
      cases e1
      rw [hr] at e2
      cases e2
    | some rect =>
      have e : (measureLayout D rt n relativeTo).1
          = [.onSuccess rect.x rect.y rect.width rect.height] := by
        simp [measureLayout, getCurrentShadowTreeRevision, h, hr]
      rw [e]
      refine ⟨Or.inr ⟨_, _, _, _, rfl⟩, by simp [hr], ?_⟩
      intro rev1 rect1 e1 e2
      cases e1
      rw [hr] at e2
      cases e2
      rfl

/-- Witness of C8: a node of a dead surface, a pair of nodes without common
layout, and two children of the root of surface 7. -/
theorem measureLayout_one_continuation_witness :
    (measureLayout exDom exRuntime exStaleNode exChildA).1 = [.onFail] ∧
    (measureLayout exDom exRuntime exChildA exStaleNode).1 = [.onFail] ∧
    (measureLayout exDom exRuntime exChildA exChildC).1 = [.onSuccess 5 6 7 8] :=
  ⟨(measureLayout_one_continuation exDom exRuntime exStaleNode exChildA).2.1.mpr
      (Or.inl (by decide)),
   (measureLayout_one_continuation exDom exRuntime exChildA exStaleNode).2.1.mpr
      (Or.inr ⟨exRoot, by decide, by decide⟩),
   (measureLayout_one_continuation exDom exRuntime exChildA exChildC).2.2 exRoot
      { x := 5, y := 6, width := 7, height := 8 } (by decide) (by decide)⟩

/-! ## Consultations of the provider within one comparison -/

/-- C9, evaluated at the failing input: a node of surface 7 that is not a root is
compared with the document 7 while a commit replaces the revision rooted at
`exRoot` by the one rooted at `exNextRoot`. The provider is consulted twice for
surface 7, and the DOM layer receives the first answer as current revision and
the second answer as the node standing for the document: two different
revisions. With the arguments swapped the provider is consulted once and the one
answer serves as both. -/
theorem compareDocumentPosition_document_fetched_twice (D : DomLayer) :
    (compareDocumentPosition D exCommittingRuntime (.shadowNode exChildA) (.number 7)).1
      = .ok (D.compareDocumentPosition exRoot exChildA exNextRoot) ∧
    (compareDocumentPosition D exCommittingRuntime (.shadowNode exChildA) (.number 7)).2.consulted
      = [7, 7] ∧
    exRoot ≠ exNextRoot ∧
    (compareDocumentPosition D exCommittingRuntime (.number 7) (.shadowNode exChildA)).1
      = .ok (D.compareDocumentPosition exRoot exRoot exChildA) ∧
    (compareDocumentPosition D exCommittingRuntime (.number 7) (.shadowNode exChildA)).2.consulted
      = [7] :=
  ⟨rfl, rfl, by decide, rfl, rfl⟩

/-- C10: in a fixed state of the provider in which surface S has a current
revision with root R, and for every node n without the root trait,
comparing the document S with n gives what comparing R with n gives, and
comparing n with the document S gives what comparing n with R gives, whatever the
two-node comparison of the DOM layer is. -/
theorem compareDocumentPosition_document_as_root (D : DomLayer) (rt : Runtime)
    (cur : SurfaceId → Option ShadowNode) (S : SurfaceId) (R n : ShadowNode)
    (hfixed : rt.Fixed cur) (hS : cur S = some R) (hR : R.surfaceId = S)
    (hn : isRootShadowNode n = false) :
    (compareDocumentPosition D rt (.number S) (.shadowNode n)).1
      = (compareDocumentPosition D rt (.shadowNode R) (.shadowNode n)).1 ∧
    (compareDocumentPosition D rt (.shadowNode n) (.number S)).1
      = (compareDocumentPosition D rt (.shadowNode n) (.shadowNode R)).1 := by
  unfold Runtime.Fixed at hfixed
  constructor
  · simp [compareDocumentPosition, getCurrentShadowTreeRevisionOf,
      getCurrentShadowTreeRevision, hfixed, hS, hR, hn]
  · simp only [compareDocumentPosition, getCurrentShadowTreeRevisionOf,
      getCurrentShadowTreeRevision, hfixed, hS, hn]
    cases cur n.surfaceId <;> simp

/-- Witness of C10 on surface 7, its root `exRoot` and the node `exChildA`. -/
theorem compareDocumentPosition_document_as_root_witness :
    (compareDocumentPosition exDom exRuntime (.number 7) (.shadowNode exChildA)).1
      = (compareDocumentPosition exDom exRuntime (.shadowNode exRoot) (.shadowNode exChildA)).1 ∧
    (compareDocumentPosition exDom exRuntime (.shadowNode exChildA) (.number 7)).1
      = (compareDocumentPosition exDom exRuntime (.shadowNode exChildA) (.shadowNode exRoot)).1 :=
  compareDocumentPosition_document_as_root exDom exRuntime
    (fun s => if s = 7 then some exRoot else none) 7 exRoot exChildA
    (fun _ => rfl) (by decide) (by decide) (by decide)

end NativeDOM
